import Mathlib

/-!
Verification of the raw-session validation logic of
`src/beneuro_data/data_validation.py`.

The Python code is embedded shallowly:

* filesystem state is a finite tree of named entries (`FSEntry`);
* every Python exception site gets its own constructor of `VError`
  (`VError.pyClass` records the Python exception class raised there);
* fallible Python functions become Lean functions into `Except VError _`.

Modelling conventions (they hold throughout the file):

* Python strings are Lean `String`s; indexing and slicing act on
  `String.data`, i.e. on code points, exactly like Python `str`.
* `re` patterns are modelled for ASCII inputs: `\d` is an ASCII digit, and
  `$` anchors at the very end of the string (Python also lets `$` match
  just before a trailing newline; session folder names in this naming
  convention never contain newlines).
* `pathlib.Path.glob` returns entries of every kind (files and
  directories), includes dot-files, and `**` recurses through all
  sub-directories; globbing a non-directory yields nothing.
-/

/-- One constructor per `raise` site of `data_validation.py`, plus
`indexError` for the unguarded `folder_name[len(subject_name)]` access and
`notADirectory` for `iterdir()` on a non-directory. -/
inductive VError where
  | sessionNotFound
  | prefixMismatch
  | indexError
  | underscoreMissing
  | dateParseError
  | dateNotCanonical
  | pycontrolPatternMismatch (filename : String)
  | wrongNumberOfFiles (expected found : Nat)
  | multiplePyFiles
  | noPyFile
  | gidExtractionFailed
  | recordingFolderNameMismatch
  | notADirectory
  | onlyFoldersAllowed
  | probeNameMismatch
  | probeFilesMismatch
  | strayEphysFile (path : List String)
  | noVideoFiles
  | videoFilenameMismatch
  | metadataMissing
  | unexpectedVideoFiles
  | strayAviFile (path : List String)
  | strayMetadataFile (path : List String)
deriving DecidableEq, Repr

/-- The Python exception class raised at each site. -/
def VError.pyClass : VError → String
  | .sessionNotFound => "FileNotFoundError"
  | .indexError => "IndexError"
  | .wrongNumberOfFiles _ _ => "WrongNumberOfFilesError"
  | .noPyFile => "FileNotFoundError"
  | .notADirectory => "NotADirectoryError"
  | .noVideoFiles => "FileNotFoundError"
  | .metadataMissing => "FileNotFoundError"
  | _ => "ValueError"

/-! ## Date handling: `datetime.strptime` / `strftime` for `"%Y_%m_%d_%H_%M"`

Python parses with the field regexes of `_strptime.TimeRE`:
`%Y` is `\d\d\d\d`, `%m` is `1[0-2]|0[1-9]|[1-9]`, `%d` is
`3[01]|[12]\d|0[1-9]|[1-9]`, `%H` is `2[0-3]|[0-1]\d|\d`, `%M` is
`[0-5]\d|\d`, joined by literal underscores, anchored at the start and
required to consume the whole string. Fields never contain `_`, so the
match succeeds exactly when splitting on `_` yields five components each
fully matching its field regex; `datetime` construction additionally
requires `1 <= year` and `day <= daysInMonth`. -/

/-- Python `str.split` with a single-character separator. -/
def splitUnderscore : List Char → List (List Char)
  | [] => [[]]
  | '_' :: rest => [] :: splitUnderscore rest
  | c :: rest =>
    match splitUnderscore rest with
    | [] => [[c]]
    | g :: gs => (c :: g) :: gs

def digitsVal (l : List Char) : Nat :=
  l.foldl (fun a c => a * 10 + (c.toNat - 48)) 0

def allDigits (l : List Char) : Bool :=
  !l.isEmpty && l.all Char.isDigit

/-- `%Y`: exactly four digits. -/
def fieldYear? (l : List Char) : Option Nat :=
  if allDigits l ∧ l.length = 4 then some (digitsVal l) else none

/-- `%m`: `1[0-2]|0[1-9]|[1-9]` as a full component. -/
def fieldMonth? (l : List Char) : Option Nat :=
  if allDigits l then
    if (l.length = 1 ∧ 1 ≤ digitsVal l) ∨
        (l.length = 2 ∧ 1 ≤ digitsVal l ∧ digitsVal l ≤ 12) then
      some (digitsVal l)
    else none
  else none

/-- `%d`: `3[01]|[12]\d|0[1-9]|[1-9]` as a full component. -/
def fieldDay? (l : List Char) : Option Nat :=
  if allDigits l then
    if (l.length = 1 ∧ 1 ≤ digitsVal l) ∨
        (l.length = 2 ∧ 1 ≤ digitsVal l ∧ digitsVal l ≤ 31) then
      some (digitsVal l)
    else none
  else none

/-- `%H`: `2[0-3]|[0-1]\d|\d` as a full component. -/
def fieldHour? (l : List Char) : Option Nat :=
  if allDigits l then
    if l.length = 1 ∨ (l.length = 2 ∧ digitsVal l ≤ 23) then
      some (digitsVal l)
    else none
  else none

/-- `%M`: `[0-5]\d|\d` as a full component. -/
def fieldMinute? (l : List Char) : Option Nat :=
  if allDigits l then
    if l.length = 1 ∨ (l.length = 2 ∧ digitsVal l ≤ 59) then
      some (digitsVal l)
    else none
  else none

structure PyDateTime where
  year : Nat
  month : Nat
  day : Nat
  hour : Nat
  minute : Nat
deriving DecidableEq, Repr

def isLeapYear (y : Nat) : Bool :=
  y % 4 == 0 && (y % 100 != 0 || y % 400 == 0)

def daysInMonth (y m : Nat) : Nat :=
  if m = 2 then (if isLeapYear y then 29 else 28)
  else if m = 4 ∨ m = 6 ∨ m = 9 ∨ m = 11 then 30
  else 31

/-- `datetime.strptime(s, "%Y_%m_%d_%H_%M")`, `none` for `ValueError`. -/
def strptime (s : String) : Option PyDateTime :=
  match splitUnderscore s.data with
  | [ys, ms, ds, hs, mts] =>
    match fieldYear? ys, fieldMonth? ms, fieldDay? ds, fieldHour? hs, fieldMinute? mts with
    | some y, some mo, some d, some h, some mi =>
      if 1 ≤ y ∧ d ≤ daysInMonth y mo then some ⟨y, mo, d, h, mi⟩ else none
    | _, _, _, _, _ => none
  | _ => none

def pad2 (n : Nat) : String :=
  if n < 10 then "0" ++ toString n else toString n

/-- `%Y` zero-padded to four digits, as documented for `datetime.strftime`
(all dates reachable through `strptime` here have `1000 <= year <= 9999`
whenever the padding could be platform-dependent matters below). -/
def pad4 (n : Nat) : String :=
  if n < 10 then "000" ++ toString n
  else if n < 100 then "00" ++ toString n
  else if n < 1000 then "0" ++ toString n
  else toString n

/-- `d.strftime("%Y_%m_%d_%H_%M")`. -/
def strftime (d : PyDateTime) : String :=
  pad4 d.year ++ "_" ++ pad2 d.month ++ "_" ++ pad2 d.day ++ "_" ++
    pad2 d.hour ++ "_" ++ pad2 d.minute

/-- `validate_date_format` (data_validation.py lines 73-94): parse the
string, reformat, and require byte-for-byte equality. -/
def validate_date_format (extracted_date_str : String) : Except VError Bool :=
  match strptime extracted_date_str with
  | none => .error .dateParseError
  | some d =>
    if extracted_date_str ≠ strftime d then .error .dateNotCanonical
    else .ok true

/-- `validate_session_path` (lines 97-137). The existence of the session
path is passed as a boolean fact about the filesystem; `folder` is
`session_path.name`. The unguarded character access
`folder_name[len(subject_name)]` becomes an explicit lookup that raises
`IndexError` when out of bounds. -/
def validate_session_path (pathExists : Bool) (folder subject : String) :
    Except VError Bool :=
  if !pathExists then .error .sessionNotFound
  else if !(subject.data.isPrefixOf folder.data) then .error .prefixMismatch
  else
    match folder.data.get? subject.data.length with
    | none => .error .indexError
    | some c =>
      if c ≠ '_' then .error .underscoreMissing
      else
        match validate_date_format (String.mk (folder.data.drop (subject.data.length + 1))) with
        | .error e => .error e
        | .ok _ => .ok true

/-- `extract_gid` (lines 420-435): `re.search(r"_g(\d)$", folder_name)`,
returning `group(0)[1:]`, i.e. the letter `g` followed by the digit. -/
def extract_gid (folder_name : String) : Except VError String :=
  match folder_name.data.reverse with
  | d :: 'g' :: '_' :: _ =>
    if d.isDigit then .ok (String.mk ['g', d]) else .error .gidExtractionFailed
  | _ => .error .gidExtractionFailed

/-! ## Filesystem model -/

/-- A named filesystem entry: a plain file or a directory with its
children. A session directory is one `FSEntry.dir`. -/
inductive FSEntry where
  | file : String → FSEntry
  | dir : String → List FSEntry → FSEntry

def FSEntry.name : FSEntry → String
  | .file n => n
  | .dir n _ => n

def FSEntry.children : FSEntry → List FSEntry
  | .file _ => []
  | .dir _ cs => cs

def FSEntry.isDir : FSEntry → Bool
  | .file _ => false
  | .dir _ _ => true

def FSEntry.isFile (e : FSEntry) : Bool := !e.isDir

/-- A strict descendant of a directory: its path relative to that
directory (own name last), its name, and whether it is a plain file. -/
structure DescEntry where
  path : List String
  name : String
  isFile : Bool
deriving DecidableEq, Repr

mutual

/-- All strict descendants of an entry, in pre-order; the result of
`session_path.glob("**/*")`. -/
def FSEntry.descendants : FSEntry → List DescEntry
  | .file _ => []
  | .dir _ cs => descendantsOfList cs

def descendantsOfList : List FSEntry → List DescEntry
  | [] => []
  | c :: rest =>
    ⟨[c.name], c.name, c.isFile⟩ ::
      ((FSEntry.descendants c).map fun d => ⟨c.name :: d.path, d.name, d.isFile⟩) ++
      descendantsOfList rest

end

/-- Python `name.endswith(suffix)`; also the semantics of globbing with
the pattern `*{suffix}` on names. -/
def endsWithStr (s suffix : String) : Bool :=
  suffix.data.isSuffixOf s.data

/-- `sub` occurs as a contiguous run somewhere in `l`. -/
def hasInfix : List Char → List Char → Bool
  | l, sub =>
    sub.isPrefixOf l ||
      match l with
      | [] => false
      | _ :: rest => hasInfix rest sub

/-- Run an effectful check over a list, stopping at the first error: the
shape of the `for`-loops with `raise` in the Python code. -/
def forEachE : List α → (α → Except VError Unit) → Except VError Unit
  | [], _ => .ok ()
  | a :: as, f =>
    match f a with
    | .error e => .error e
    | .ok _ => forEachE as f

/-! ## Behavioral validator (lines 140-249) -/

/-- Modelled from the spec: `_find_whitelisted_files_in_root` is imported
from `beneuro_data.extra_file_handling`, which is not among the sources.
Per the spec (sections 3 and 4.2) it collects the entries of the session
root whose filename exactly matches one of the caller-supplied
whitelisted names. -/
def find_whitelisted_files_in_root (session : FSEntry)
    (whitelisted_files_in_root : List String) : List String :=
  (session.children.filter fun c => whitelisted_files_in_root.contains c.name).map
    FSEntry.name

/-- `re.match` of `rf"^{re.escape(session)}" + r".*" + r"_MotSen\d-(X|Y)\.pca"`
against `name`: `name` starts with the session name and, somewhere at or
after that prefix, contains `_MotSen<digit>-(X|Y).pca`. -/
def motSenAt : List Char → Bool
  | '_' :: 'M' :: 'o' :: 't' :: 'S' :: 'e' :: 'n' :: d :: '-' :: a :: rest =>
    d.isDigit && (a == 'X' || a == 'Y') && ".pca".data.isPrefixOf rest
  | _ => false

def hasMotSenPca : List Char → Bool
  | [] => false
  | c :: rest => motSenAt (c :: rest) || hasMotSenPca rest

def pcaPatternOk (sessionName name : String) : Bool :=
  sessionName.data.isPrefixOf name.data &&
    hasMotSenPca (name.data.drop sessionName.data.length)

/-- `re.match` of `rf"^{re.escape(session)}" + r".*" + r"\.txt"` against
`name`: `name` starts with the session name and contains `.txt` at or
after that prefix. -/
def txtPatternOk (sessionName name : String) : Bool :=
  sessionName.data.isPrefixOf name.data &&
    hasInfix (name.data.drop sessionName.data.length) ".txt".data

/-- The inner loop over `all_files_with_extension` (lines 205-216): skip
whitelisted files, fail on the first name that does not match the
PyControl pattern, collect the rest in order. -/
def collect_pycontrol_files (wlFound : List String) (pat : String → Bool) :
    List FSEntry → Except VError (List String)
  | [] => .ok []
  | f :: rest =>
    if wlFound.contains f.name then collect_pycontrol_files wlFound pat rest
    else if pat f.name then
      (collect_pycontrol_files wlFound pat rest).map (f.name :: ·)
    else .error (.pycontrolPatternMismatch f.name)

/-- One iteration of the per-extension loop (lines 195-228): glob
`*{ext}` in the session root, pattern-check the non-whitelisted matches,
then require exactly the expected number of them. -/
def check_extension_files (children : List FSEntry) (wlFound : List String)
    (ext : String) (pat : String → Bool) (expected : Nat) :
    Except VError (List String) :=
  match collect_pycontrol_files wlFound pat
      (children.filter fun c => endsWithStr c.name ext) with
  | .error e => .error e
  | .ok matched =>
    if matched.length ≠ expected then
      .error (.wrongNumberOfFiles expected matched.length)
    else .ok matched

def pycontrol_py_foldername : String := "run_task-task_files"

/-- The task-folder step (lines 233-247): a missing
`run_task-task_files` folder only warns; if present it must hold exactly
one `.py` file, which is returned. (`glob` on a file yields nothing, so a
plain file of that name behaves like an empty folder.) -/
def check_task_folder (children : List FSEntry) (warnFlag : Bool) :
    Except VError (Option String × List String) :=
  match children.find? (fun c => c.name == pycontrol_py_foldername) with
  | none =>
    .ok (none, if warnFlag then ["No PyControl task folder found"] else [])
  | some folder =>
    let pys := folder.children.filter fun c => endsWithStr c.name ".py"
    if pys.length > 1 then .error .multiplePyFiles
    else
      match pys with
      | [] => .error .noPyFile
      | p :: _ => .ok (some p.name, [])

/-- `validate_raw_behavioral_data_of_session` (lines 140-249). Returns
the validated file paths (relative to the session directory) together
with the advisory warnings emitted. -/
def validate_raw_behavioral_data_of_session (session : FSEntry)
    (pathExists : Bool) (subject : String)
    (whitelisted_files_in_root : List String)
    (warn_if_no_pycontrol_py_folder : Bool) :
    Except VError (List (List String) × List String) :=
  match validate_session_path pathExists session.name subject with
  | .error e => .error e
  | .ok _ =>
    let wlFound := find_whitelisted_files_in_root session whitelisted_files_in_root
    match check_extension_files session.children wlFound ".pca"
        (pcaPatternOk session.name) 2 with
    | .error e => .error e
    | .ok pcas =>
      match check_extension_files session.children wlFound ".txt"
          (txtPatternOk session.name) 1 with
      | .error e => .error e
      | .ok txts =>
        match check_task_folder session.children warn_if_no_pycontrol_py_folder with
        | .error e => .error e
        | .ok (task?, warns) =>
          .ok ((pcas.map fun n => [n]) ++ (txts.map fun n => [n]) ++
            (match task? with
             | some n => [[pycontrol_py_foldername, n]]
             | none => []), warns)


/-! ## Ephys validator (lines 252-435) -/

/-- fnmatch of the glob pattern `*_g?` against a name: anything, then
`_g`, then exactly one character (any character, not only a digit). -/
def matchesRecordingGlob (name : String) : Bool :=
  match name.data.reverse with
  | _ :: 'g' :: '_' :: _ => true
  | _ => false

/-- `_find_spikeglx_recording_folders_in_session` (lines 252-279): the
children of the session matching `*_g?` (it also warns, as a side
effect, when more than one matches; the warning is not returned). -/
def find_spikeglx_recording_folders_in_session (session : FSEntry) : List FSEntry :=
  session.children.filter fun c => matchesRecordingGlob c.name

/-- `Path.match(".*")`: the name starts with a dot. -/
def isHidden (name : String) : Bool :=
  match name.data with
  | '.' :: _ => true
  | _ => false

/-- `pathlib.Path.suffix`: the part of the name from its last dot on,
provided that dot is neither the first nor the last character;
otherwise the empty string. -/
def pathSuffix (name : String) : String :=
  match name.data.reverse.findIdx? (· == '.') with
  | none => ""
  | some j =>
    let n := name.data.length
    let i := n - 1 - j
    if 0 < i ∧ i < n - 1 then String.mk (name.data.drop i) else ""

/-- The `iterdir` loop of `validate_raw_ephys_recording` (lines
371-385): skip hidden entries and entries whose suffix is allowed, fail
on any remaining non-directory, collect the directories in order. -/
def collectProbeSubfolders (allowed : List String) :
    List FSEntry → Except VError (List FSEntry)
  | [] => .ok []
  | c :: rest =>
    if isHidden c.name then collectProbeSubfolders allowed rest
    else if allowed.contains (pathSuffix c.name) then
      collectProbeSubfolders allowed rest
    else if !c.isDir then .error .onlyFoldersAllowed
    else (collectProbeSubfolders allowed rest).map (c :: ·)

/-- `re.match(rf"{gid_folder_name}_imec\d$", probe_name)` with the folder
name interpolated verbatim: for the folder names of this convention
(no regex metacharacters) this is `probe_name = gid_folder_name ++
"_imec" ++ digit`. -/
def probeNameOk (gidFolderName probeName : String) : Bool :=
  gidFolderName.data.isPrefixOf probeName.data &&
    match probeName.data.drop gidFolderName.data.length with
    | '_' :: 'i' :: 'm' :: 'e' :: 'c' :: [d] => d.isDigit
    | _ => false

/-- Python `probe_folder.name.split("_")[-1]`. -/
def lastUnderscoreComponent (name : String) : String :=
  String.mk ((splitUnderscore name.data).getLastD [])

def spikeglx_endings : List String := [".lf.meta", ".lf.bin", ".ap.meta", ".ap.bin"]

/-- The four expected filenames
`{gid_folder_name}_t0.{imec_str}{ending}` of a probe subfolder. -/
def expectedProbeFilenames (gidFolderName probeName : String) : List String :=
  spikeglx_endings.map fun ending =>
    gidFolderName ++ "_t0." ++ lastUnderscoreComponent probeName ++ ending

/-- Equality of the name sets `found_filenames` and
`expected_filenames`. -/
def sameNameSet (found expected : List String) : Bool :=
  found.all (expected.contains ·) && expected.all (found.contains ·)

/-- The per-probe file-set check (lines 395-415): the set of names found
inside the probe subfolder must equal the four expected names (the
kilosort-folder allowance is commented out in the source). -/
def check_probe_files (gidFolderName : String) (probe : FSEntry) :
    Except VError Unit :=
  if sameNameSet (probe.children.map FSEntry.name)
      (expectedProbeFilenames gidFolderName probe.name) then .ok ()
  else .error .probeFilesMismatch

/-- `validate_raw_ephys_recording` (lines 336-417). `sessionName` is
`gid_folder_path.parent.name`; `rec` is the recording folder entry. -/
def validate_raw_ephys_recording (sessionName : String) (rec : FSEntry)
    (allowed_extensions_not_in_root : List String) : Except VError Bool :=
  match extract_gid rec.name with
  | .error e => .error e
  | .ok gid =>
    if rec.name ≠ sessionName ++ "_" ++ gid then
      .error .recordingFolderNameMismatch
    else if !rec.isDir then .error .notADirectory
    else
      match collectProbeSubfolders allowed_extensions_not_in_root rec.children with
      | .error e => .error e
      | .ok probes =>
        match forEachE probes (fun p =>
            if probeNameOk rec.name p.name then .ok ()
            else .error .probeNameMismatch) with
        | .error e => .error e
        | .ok _ =>
          match forEachE probes (check_probe_files rec.name) with
          | .error e => .error e
          | .ok _ => .ok true

/-- The cross-check of lines 314-324: every entry of the session tree
whose name ends in a SpikeGLX ending must lie inside one of the
discovered recording folders (all of which are direct children of the
session root, so `is_relative_to` is a check on the first path
component). -/
def ephys_cross_check (recNames : List String) (session : FSEntry) :
    Except VError Unit :=
  forEachE spikeglx_endings fun ending =>
    forEachE ((FSEntry.descendants session).filter fun d =>
        endsWithStr d.name ending) fun d =>
      if recNames.any (fun r => d.path.head? == some r) then .ok ()
      else .error (.strayEphysFile d.path)

/-- The final file listing of lines 326-331: all plain files recursively
under the recording folders, as session-relative paths. -/
def ephysFilesOf (recs : List FSEntry) : List (List String) :=
  recs.flatMap fun rec =>
    ((FSEntry.descendants rec).filter DescEntry.isFile).map fun d =>
      rec.name :: d.path

/-- `validate_raw_ephys_data_of_session` (lines 282-333). -/
def validate_raw_ephys_data_of_session (session : FSEntry) (pathExists : Bool)
    (subject : String) (allowed_extensions_not_in_root : List String) :
    Except VError (List (List String)) :=
  match validate_session_path pathExists session.name subject with
  | .error e => .error e
  | .ok _ =>
    let recs := find_spikeglx_recording_folders_in_session session
    match forEachE recs (fun rec =>
        match validate_raw_ephys_recording session.name rec
            allowed_extensions_not_in_root with
        | .error e => .error e
        | .ok _ => .ok ()) with
    | .error e => .error e
    | .ok _ =>
      match ephys_cross_check (recs.map FSEntry.name) session with
      | .error e => .error e
      | .ok _ => .ok (ephysFilesOf recs)

/-! ## Video validator (lines 438-524) -/

/-- The video-folder checks of lines 474-505: when the folder
`{session_name}_cameras` is absent only a warning is recorded; when
present it must contain at least one `.avi` file, every `.avi` name must
start with `{session_name}_camera_`, and the remaining entries must be
exactly `metadata.csv`. -/
def check_video_folder (sessionName : String) (children : List FSEntry)
    (warnFlag : Bool) : Except VError (Bool × List String) :=
  match children.find? (fun c => c.name == sessionName ++ "_cameras") with
  | none =>
    .ok (false, if warnFlag then ["No correctly named video folder found"] else [])
  | some folder =>
    let aviFiles := folder.children.filter fun c => endsWithStr c.name ".avi"
    if aviFiles.isEmpty then .error .noVideoFiles
    else
      match aviFiles.find? (fun c =>
          !((sessionName ++ "_camera_").data.isPrefixOf c.name.data)) with
      | some _ => .error .videoFilenameMismatch
      | none =>
        let remaining := folder.children.filter fun c => !endsWithStr c.name ".avi"
        if !(remaining.any fun c => c.name == "metadata.csv") then
          .error .metadataMissing
        else if remaining.length > 1 then .error .unexpectedVideoFiles
        else .ok (true, [])

/-- First descendant of `paths` not inside the direct child named
`folderName`. -/
def firstOutside (folderName : String) (paths : List (List String)) :
    Option (List String) :=
  paths.find? fun p => !(p.head? == some folderName)

/-- The recursive cross-checks of lines 507-519, run regardless of
whether the video folder exists: no `.avi` entry and no `metadata.csv`
entry anywhere in the session tree outside the video folder path. -/
def videos_cross_check (session : FSEntry) (folderName : String) :
    Except VError Unit :=
  match firstOutside folderName
      (((FSEntry.descendants session).filter fun d =>
        endsWithStr d.name ".avi").map DescEntry.path) with
  | some p => .error (.strayAviFile p)
  | none =>
    match firstOutside folderName
        (((FSEntry.descendants session).filter fun d =>
          d.name == "metadata.csv").map DescEntry.path) with
    | some p => .error (.strayMetadataFile p)
    | none => .ok ()

/-- The file listing of line 522: all plain files recursively under the
video folder, as session-relative paths. -/
def videoFilesOf (session : FSEntry) (folderName : String) : List (List String) :=
  match session.children.find? (fun c => c.name == folderName) with
  | none => []
  | some folder =>
    ((FSEntry.descendants folder).filter DescEntry.isFile).map fun d =>
      folderName :: d.path

/-- `validate_raw_videos_of_session` (lines 438-524). Returns the video
files (relative paths) and the advisory warnings. -/
def validate_raw_videos_of_session (session : FSEntry) (pathExists : Bool)
    (subject : String) (warn_if_no_video_folder : Bool) :
    Except VError (List (List String) × List String) :=
  match validate_session_path pathExists session.name subject with
  | .error e => .error e
  | .ok _ =>
    let folderName := session.name ++ "_cameras"
    match check_video_folder session.name session.children warn_if_no_video_folder with
    | .error e => .error e
    | .ok (folderExists, warns) =>
      match videos_cross_check session folderName with
      | .error e => .error e
      | .ok _ =>
        if folderExists then .ok (videoFilesOf session folderName, warns)
        else .ok ([], warns)

/-! ## Session validator (lines 18-70) -/

/-- `validate_raw_session` (lines 18-70): run the three validators
conditionally on their toggles and return the triple of file lists
(warnings are emitted as side effects in Python and dropped here, as
they are not part of the return value). -/
def validate_raw_session (session : FSEntry) (pathExists : Bool)
    (subject : String)
    (include_behavior include_ephys include_videos : Bool)
    (whitelisted_files_in_root : List String)
    (allowed_extensions_not_in_root : List String) :
    Except VError (List (List String) × List (List String) × List (List String)) :=
  match (if include_behavior then
      (validate_raw_behavioral_data_of_session session pathExists subject
        whitelisted_files_in_root true).map Prod.fst
    else .ok []) with
  | .error e => .error e
  | .ok behavior_files =>
    match (if include_ephys then
        validate_raw_ephys_data_of_session session pathExists subject
          allowed_extensions_not_in_root
      else .ok []) with
    | .error e => .error e
    | .ok ephys_files =>
      match (if include_videos then
          (validate_raw_videos_of_session session pathExists subject true).map
            Prod.fst
        else .ok []) with
      | .error e => .error e
      | .ok video_files => .ok (behavior_files, ephys_files, video_files)

/-! ## Helper lemmas -/

theorem forEachE_ok_iff {l : List α} {f : α → Except VError Unit} :
    forEachE l f = .ok () ↔ ∀ a ∈ l, f a = .ok () := by
  induction l with
  | nil => simp [forEachE]
  | cons a as ih =>
    simp only [forEachE]
    cases h : f a with
    | error e => simp [h]
    | ok u => cases u; simp [h, ih]

theorem validate_date_format_ok_true {s : String} {b : Bool}
    (h : validate_date_format s = .ok b) : b = true := by
  unfold validate_date_format at h
  split at h
  · exact absurd h (by simp)
  · split at h
    · exact absurd h (by simp)
    · exact (Except.ok.inj h).symm

theorem validate_date_format_error_cases {s : String} {e : VError}
    (h : validate_date_format s = .error e) :
    e = .dateParseError ∨ e = .dateNotCanonical := by
  unfold validate_date_format at h
  split at h
  · exact Or.inl (Except.error.inj h).symm
  · split at h
    · exact Or.inr (Except.error.inj h).symm
    · exact absurd h (by simp)

/-! ## Claim theorems -/

/-- Claim C1, counterexample: on `"M016_2023_08_15_16_00_g1"` the code
returns the string `"g1"` (the whole `group(0)[1:]`), not `"1"` as the
claim states. -/
theorem extract_gid_claim_counterexample :
    extract_gid "M016_2023_08_15_16_00_g1" ≠ .ok "1" := by
  intro h
  rw [show extract_gid "M016_2023_08_15_16_00_g1" = .ok "g1" from rfl] at h
  exact absurd (Except.ok.inj h) (by decide)

/-- Claim C1, amended: `extract_gid "M016_2023_08_15_16_00_g1"` returns
`"g1"` (the docstring of `extract_gid` documents exactly this), and a
folder name with no trailing `_g{digit}` token raises the format
error. -/
theorem extract_gid_amended :
    extract_gid "M016_2023_08_15_16_00_g1" = .ok "g1" ∧
      extract_gid "...no_gid_here" = .error .gidExtractionFailed :=
  ⟨rfl, rfl⟩

/-- Claim C2: `validate_date_format` succeeds exactly on strings that
parse under `%Y_%m_%d_%H_%M` and reformat byte-for-byte to themselves;
`"2023_8_15_16_00"` parses but is not canonical and raises the
round-trip format error; and `validate_session_path` on an existing
folder named `{subject}_{date}` succeeds exactly when the date part
round-trips. -/
theorem validate_date_format_roundtrip :
    (∀ s, validate_date_format s = .ok true ↔
      ∃ d, strptime s = some d ∧ strftime d = s) ∧
    validate_date_format "2023_08_15_16_00" = .ok true ∧
    validate_date_format "2023_8_15_16_00" = .error .dateNotCanonical ∧
    (∀ subject date : String,
      validate_session_path true (subject ++ "_" ++ date) subject = .ok true ↔
        validate_date_format date = .ok true) := by
  refine ⟨fun s => ?_, rfl, rfl, fun subject date => ?_⟩
  · constructor
    · intro h
      unfold validate_date_format at h
      split at h
      · exact absurd h (by simp)
      · rename_i d hs
        split at h
        · exact absurd h (by simp)
        · rename_i hne
          exact ⟨d, hs, (not_not.mp hne).symm⟩
    · rintro ⟨d, hs, hf⟩
      unfold validate_date_format
      simp [hs, hf]
  · have hdata : (subject ++ "_" ++ date).data =
        subject.data ++ '_' :: date.data := by
      rw [String.data_append, String.data_append]
      rw [show ("_" : String).data = ['_'] from rfl]
      simp
    have hpre : subject.data.isPrefixOf (subject.data ++ '_' :: date.data) = true :=
      List.isPrefixOf_iff_prefix.mpr (List.prefix_append _ _)
    have hget : (subject.data ++ '_' :: date.data).get? subject.data.length =
        some '_' := by
      rw [List.get?_append_right (Nat.le_refl _)]
      simp
    have hdrop : (subject.data ++ '_' :: date.data).drop (subject.data.length + 1) =
        date.data := by
      have h2 : subject.data ++ '_' :: date.data =
          (subject.data ++ ['_']) ++ date.data := by simp
      rw [h2]
      have hlen : subject.data.length + 1 = (subject.data ++ ['_']).length := by simp
      rw [hlen, List.drop_left]
    have hmk : String.mk date.data = date := rfl
    unfold validate_session_path
    rw [hdata, hpre, hget, hdrop, hmk]
    cases hv : validate_date_format date with
    | error e => simp [hv]
    | ok b =>
      have hb := validate_date_format_ok_true hv
      subst hb
      simp [hv]

/-- Claim C9: the character access `folder_name[len(subject_name)]` is
out of bounds exactly when the folder name equals the subject name (the
only way the `startswith` guard passes without a longer name), and then
`validate_session_path` raises `IndexError` rather than a format error;
when the folder name is strictly longer, `IndexError` is impossible. -/
theorem session_path_index_out_of_bounds :
    (∀ s : String, validate_session_path true s s = .error .indexError) ∧
      (∀ folder subject : String,
        subject.data.isPrefixOf folder.data = true →
        subject.data.length < folder.data.length →
        validate_session_path true folder subject ≠ .error .indexError) := by
  constructor
  · intro s
    unfold validate_session_path
    rw [show s.data.isPrefixOf s.data = true from
      List.isPrefixOf_iff_prefix.mpr (List.prefix_refl _)]
    rw [List.get?_eq_none.mpr (Nat.le_refl _)]
    rfl
  · intro folder subject hpre hlen hcontra
    unfold validate_session_path at hcontra
    rw [hpre] at hcontra
    cases hget : folder.data.get? subject.data.length with
    | none =>
      exact absurd (List.get?_eq_none.mp hget) (Nat.not_le.mpr hlen)
    | some c =>
      rw [hget] at hcontra
      by_cases hc : c = '_'
      · subst hc
        simp only [] at hcontra
        cases hv : validate_date_format
            (String.mk (folder.data.drop (subject.data.length + 1))) with
        | error e =>
          rw [hv] at hcontra
          simp at hcontra
          rcases validate_date_format_error_cases hv with h1 | h1 <;>
            simp [hcontra] at h1
        | ok b =>
          rw [hv] at hcontra
          simp at hcontra
      · simp [hc] at hcontra

/-- Claim C10: with all three include toggles off, `validate_raw_session`
returns `([], [], [])` for every filesystem state whatsoever — no
session-path validation and no traversal happens, even for a missing
path or an invalidly named folder. -/
theorem validate_raw_session_all_off (session : FSEntry) (pathExists : Bool)
    (subject : String) (wl allowed : List String) :
    validate_raw_session session pathExists subject false false false wl allowed =
      .ok ([], [], []) := rfl

/-- Claim C5: after the per-extension pattern checks pass, a matched-file
count different from the expected count raises the wrong-file-count
error carrying expected and found; concretely, a session with exactly
one correctly named `.pca` file fails with expected 2, found 1. -/
theorem behavioral_wrong_file_count :
    (∀ (children : List FSEntry) (wlFound : List String) (ext : String)
        (pat : String → Bool) (expected : Nat) (matched : List String),
      collect_pycontrol_files wlFound pat
          (children.filter fun c => endsWithStr c.name ext) = .ok matched →
      matched.length ≠ expected →
      check_extension_files children wlFound ext pat expected =
        .error (.wrongNumberOfFiles expected matched.length)) ∧
    validate_raw_behavioral_data_of_session
        (.dir "M016_2023_08_15_16_00"
          [.file "M016_2023_08_15_16_00_MotSen1-X.pca"])
        true "M016" [] true =
      .error (.wrongNumberOfFiles 2 1) := by
  constructor
  · intro children wlFound ext pat expected matched hc hne
    unfold check_extension_files
    simp [hc, hne]
  · rfl

/-- Witness for `behavioral_wrong_file_count` at a concrete session
root holding one well-formed `.pca` file. -/
theorem behavioral_wrong_file_count_witness :
    check_extension_files [.file "M016_2023_08_15_16_00_MotSen1-X.pca"] []
        ".pca" (pcaPatternOk "M016_2023_08_15_16_00") 2 =
      .error (.wrongNumberOfFiles 2 1) :=
  behavioral_wrong_file_count.1
    [.file "M016_2023_08_15_16_00_MotSen1-X.pca"] [] ".pca"
    (pcaPatternOk "M016_2023_08_15_16_00") 2
    ["M016_2023_08_15_16_00_MotSen1-X.pca"] rfl (by decide)

/-- Claim C8: a missing `run_task-task_files` folder is non-fatal and
only records the advisory warning (no task file appended); when the
folder exists, zero `.py` files is a fatal error and more than one is a
fatal error, while exactly one is returned; a full behavioral run on a
session without the folder succeeds with only the warning. -/
theorem task_folder_policy :
    (∀ children : List FSEntry,
      children.find? (fun c => c.name == pycontrol_py_foldername) = none →
      check_task_folder children true =
        .ok (none, ["No PyControl task folder found"])) ∧
    (∀ (children : List FSEntry) (folder : FSEntry),
      children.find? (fun c => c.name == pycontrol_py_foldername) = some folder →
      folder.children.filter (fun c => endsWithStr c.name ".py") = [] →
      check_task_folder children true = .error .noPyFile) ∧
    (∀ (children : List FSEntry) (folder : FSEntry),
      children.find? (fun c => c.name == pycontrol_py_foldername) = some folder →
      (folder.children.filter fun c => endsWithStr c.name ".py").length > 1 →
      check_task_folder children true = .error .multiplePyFiles) ∧
    (∀ (children : List FSEntry) (folder p : FSEntry),
      children.find? (fun c => c.name == pycontrol_py_foldername) = some folder →
      folder.children.filter (fun c => endsWithStr c.name ".py") = [p] →
      check_task_folder children true = .ok (some p.name, [])) ∧
    validate_raw_behavioral_data_of_session
        (.dir "M016_2023_08_15_16_00"
          [.file "M016_2023_08_15_16_00_MotSen1-X.pca",
           .file "M016_2023_08_15_16_00_MotSen2-Y.pca",
           .file "M016_2023_08_15_16_00.txt"])
        true "M016" [] true =
      .ok ([["M016_2023_08_15_16_00_MotSen1-X.pca"],
            ["M016_2023_08_15_16_00_MotSen2-Y.pca"],
            ["M016_2023_08_15_16_00.txt"]],
           ["No PyControl task folder found"]) := by
  refine ⟨?_, ?_, ?_, ?_, rfl⟩
  · intro children h
    unfold check_task_folder
    simp [h]
  · intro children folder h hfil
    unfold check_task_folder
    simp [h, hfil]
  · intro children folder h hlen
    unfold check_task_folder
    simp [h, hlen]
  · intro children folder p h hfil
    unfold check_task_folder
    simp [h, hfil]

/-- Witness for `task_folder_policy` at concrete directory contents. -/
theorem task_folder_policy_witness :
    check_task_folder [] true =
        .ok (none, ["No PyControl task folder found"]) ∧
      check_task_folder [.dir "run_task-task_files" []] true =
        .error .noPyFile ∧
      check_task_folder
          [.dir "run_task-task_files" [.file "a.py", .file "b.py"]] true =
        .error .multiplePyFiles ∧
      check_task_folder [.dir "run_task-task_files" [.file "a.py"]] true =
        .ok (some "a.py", []) :=
  ⟨task_folder_policy.1 [] rfl,
   task_folder_policy.2.1 _ (.dir "run_task-task_files" []) rfl rfl,
   task_folder_policy.2.2.1 _
     (.dir "run_task-task_files" [.file "a.py", .file "b.py"]) rfl (by decide),
   task_folder_policy.2.2.2.1 _ (.dir "run_task-task_files" [.file "a.py"])
     (.file "a.py") rfl rfl⟩

/-- Claim C7, counterexample: for a session folder whose name equals the
subject name exactly, the code raises `IndexError` — not the claimed
format error (`ValueError`), and not a success. -/
theorem session_path_claim_counterexample :
    validate_session_path true "M016" "M016" = .error .indexError ∧
      VError.indexError.pyClass ≠ "ValueError" :=
  ⟨rfl, by decide⟩

/-- Claim C7, amended: `validate_session_path` raises the not-found
error when the path is missing; a format error (`ValueError`) when the
name does not start with the subject, or when it is strictly longer and
the character right after the subject name is not an underscore, or
when the date suffix fails the canonical-format check — with distinct
errors for the wrong-prefix and wrong-date cases; it raises `IndexError`
(not a format error) when the folder name equals the subject name; and
it returns `True` in every other case. -/
theorem session_path_error_taxonomy :
    (∀ folder subject : String,
      validate_session_path false folder subject = .error .sessionNotFound) ∧
    (∀ folder subject : String,
      subject.data.isPrefixOf folder.data = false →
      validate_session_path true folder subject = .error .prefixMismatch) ∧
    (∀ subject : String,
      validate_session_path true subject subject = .error .indexError) ∧
    (∀ (folder subject : String) (c : Char),
      subject.data.isPrefixOf folder.data = true →
      folder.data.get? subject.data.length = some c →
      c ≠ '_' →
      validate_session_path true folder subject = .error .underscoreMissing) ∧
    (∀ folder subject : String,
      subject.data.isPrefixOf folder.data = true →
      folder.data.get? subject.data.length = some '_' →
      validate_session_path true folder subject =
        (match validate_date_format
            (String.mk (folder.data.drop (subject.data.length + 1))) with
         | .error e => .error e
         | .ok _ => .ok true)) ∧
    (VError.prefixMismatch.pyClass = "ValueError" ∧
      VError.underscoreMissing.pyClass = "ValueError" ∧
      VError.dateParseError.pyClass = "ValueError" ∧
      VError.dateNotCanonical.pyClass = "ValueError" ∧
      VError.prefixMismatch ≠ VError.underscoreMissing ∧
      VError.prefixMismatch ≠ VError.dateParseError ∧
      VError.prefixMismatch ≠ VError.dateNotCanonical) := by
  refine ⟨fun folder subject => rfl, ?_, ?_, ?_, ?_, by decide⟩
  · intro folder subject h
    unfold validate_session_path
    rw [h]
    rfl
  · intro subject
    unfold validate_session_path
    rw [show subject.data.isPrefixOf subject.data = true from
      List.isPrefixOf_iff_prefix.mpr (List.prefix_refl _)]
    rw [List.get?_eq_none.mpr (Nat.le_refl _)]
    rfl
  · intro folder subject c hpre hget hc
    unfold validate_session_path
    rw [hpre, hget]
    simp [hc]
  · intro folder subject hpre hget
    unfold validate_session_path
    rw [hpre, hget]
    simp

/-- Witness for `session_path_error_taxonomy` at concrete inputs. -/
theorem session_path_error_taxonomy_witness :
    validate_session_path true "X016_2023_08_15_16_00" "M016" =
        .error .prefixMismatch ∧
      validate_session_path true "M016x2023" "M016" =
        .error .underscoreMissing ∧
      validate_session_path true "M016_2023_08_15_16_00" "M016" =
        (match validate_date_format
            (String.mk ("M016_2023_08_15_16_00".data.drop ("M016".data.length + 1))) with
         | .error e => .error e
         | .ok _ => .ok true) :=
  ⟨session_path_error_taxonomy.2.1 "X016_2023_08_15_16_00" "M016" (by decide),
   session_path_error_taxonomy.2.2.2.1 "M016x2023" "M016" 'x' (by decide)
     (by decide) (by decide),
   session_path_error_taxonomy.2.2.2.2.1 "M016_2023_08_15_16_00" "M016"
     (by decide) (by decide)⟩

theorem validate_raw_ephys_recording_ok_true {sessionName : String}
    {rec : FSEntry} {allowed : List String} {b : Bool}
    (h : validate_raw_ephys_recording sessionName rec allowed = .ok b) :
    b = true := by
  unfold validate_raw_ephys_recording at h
  repeat' split at h
  all_goals first
    | exact (Except.ok.inj h).symm
    | exact absurd h (by simp)

/-- Claim C3: `validate_raw_ephys_recording` succeeds only when every
probe subfolder holds exactly the four expected file names
`{recording_folder_name}_t0.imec{digit}.{lf.meta, lf.bin, ap.meta,
ap.bin}`; a file-set mismatch in any probe subfolder (a missing file or
any extra entry, a kilosort output subdirectory included) forces an
error. -/
theorem probe_file_set_exactness :
    (∀ (sessionName : String) (rec : FSEntry) (allowed : List String)
        (probes : List FSEntry),
      collectProbeSubfolders allowed rec.children = .ok probes →
      validate_raw_ephys_recording sessionName rec allowed = .ok true →
      ∀ p ∈ probes,
        sameNameSet (p.children.map FSEntry.name)
          (expectedProbeFilenames rec.name p.name) = true) ∧
    (∀ (sessionName : String) (rec : FSEntry) (allowed : List String)
        (probes : List FSEntry) (p : FSEntry),
      collectProbeSubfolders allowed rec.children = .ok probes →
      p ∈ probes →
      sameNameSet (p.children.map FSEntry.name)
        (expectedProbeFilenames rec.name p.name) = false →
      ∃ e, validate_raw_ephys_recording sessionName rec allowed = .error e) := by
  have hA : ∀ (sessionName : String) (rec : FSEntry) (allowed : List String)
      (probes : List FSEntry),
      collectProbeSubfolders allowed rec.children = .ok probes →
      validate_raw_ephys_recording sessionName rec allowed = .ok true →
      ∀ p ∈ probes,
        sameNameSet (p.children.map FSEntry.name)
          (expectedProbeFilenames rec.name p.name) = true := by
    intro sessionName rec allowed probes hcollect hok p hp
    unfold validate_raw_ephys_recording at hok
    split at hok
    · exact absurd hok (by simp)
    · split at hok
      · exact absurd hok (by simp)
      · split at hok
        · exact absurd hok (by simp)
        · split at hok
          · exact absurd hok (by simp)
          · rename_i probes' hcollect'
            split at hok
            · exact absurd hok (by simp)
            · split at hok
              · exact absurd hok (by simp)
              · rename_i u hfe
                have hpp : probes' = probes :=
                  Except.ok.inj (hcollect'.symm.trans hcollect)
                subst hpp
                cases u
                have hcheck := forEachE_ok_iff.mp hfe p hp
                unfold check_probe_files at hcheck
                split at hcheck
                · assumption
                · exact absurd hcheck (by simp)
  refine ⟨hA, ?_⟩
  intro sessionName rec allowed probes p hcollect hp hfalse
  cases hres : validate_raw_ephys_recording sessionName rec allowed with
  | error e => exact ⟨e, rfl⟩
  | ok b =>
    have hb := validate_raw_ephys_recording_ok_true hres
    subst hb
    have htrue := hA sessionName rec allowed probes hcollect hres p hp
    rw [hfalse] at htrue
    exact absurd htrue (by simp)

/-- Witness for `probe_file_set_exactness`: a four-file probe subfolder
passes and its name set matches the expected set; dropping `ap.bin`
makes the recording validation fail. -/
theorem probe_file_set_exactness_witness :
    sameNameSet
        ((FSEntry.dir "M016_2023_08_15_16_00_g0_imec0"
          [.file "M016_2023_08_15_16_00_g0_t0.imec0.lf.meta",
           .file "M016_2023_08_15_16_00_g0_t0.imec0.lf.bin",
           .file "M016_2023_08_15_16_00_g0_t0.imec0.ap.meta",
           .file "M016_2023_08_15_16_00_g0_t0.imec0.ap.bin"]).children.map
          FSEntry.name)
        (expectedProbeFilenames
          (FSEntry.dir "M016_2023_08_15_16_00_g0"
            [FSEntry.dir "M016_2023_08_15_16_00_g0_imec0"
              [.file "M016_2023_08_15_16_00_g0_t0.imec0.lf.meta",
               .file "M016_2023_08_15_16_00_g0_t0.imec0.lf.bin",
               .file "M016_2023_08_15_16_00_g0_t0.imec0.ap.meta",
               .file "M016_2023_08_15_16_00_g0_t0.imec0.ap.bin"]]).name
          (FSEntry.dir "M016_2023_08_15_16_00_g0_imec0"
            [.file "M016_2023_08_15_16_00_g0_t0.imec0.lf.meta",
             .file "M016_2023_08_15_16_00_g0_t0.imec0.lf.bin",
             .file "M016_2023_08_15_16_00_g0_t0.imec0.ap.meta",
             .file "M016_2023_08_15_16_00_g0_t0.imec0.ap.bin"]).name) = true ∧
      (∃ e, validate_raw_ephys_recording "M016_2023_08_15_16_00"
        (.dir "M016_2023_08_15_16_00_g0"
          [.dir "M016_2023_08_15_16_00_g0_imec0"
            [.file "M016_2023_08_15_16_00_g0_t0.imec0.lf.meta",
             .file "M016_2023_08_15_16_00_g0_t0.imec0.lf.bin",
             .file "M016_2023_08_15_16_00_g0_t0.imec0.ap.meta"]]) [] =
          .error e) :=
  ⟨probe_file_set_exactness.1 "M016_2023_08_15_16_00"
      (FSEntry.dir "M016_2023_08_15_16_00_g0"
        [FSEntry.dir "M016_2023_08_15_16_00_g0_imec0"
          [.file "M016_2023_08_15_16_00_g0_t0.imec0.lf.meta",
           .file "M016_2023_08_15_16_00_g0_t0.imec0.lf.bin",
           .file "M016_2023_08_15_16_00_g0_t0.imec0.ap.meta",
           .file "M016_2023_08_15_16_00_g0_t0.imec0.ap.bin"]]) []
      [FSEntry.dir "M016_2023_08_15_16_00_g0_imec0"
        [.file "M016_2023_08_15_16_00_g0_t0.imec0.lf.meta",
         .file "M016_2023_08_15_16_00_g0_t0.imec0.lf.bin",
         .file "M016_2023_08_15_16_00_g0_t0.imec0.ap.meta",
         .file "M016_2023_08_15_16_00_g0_t0.imec0.ap.bin"]] rfl rfl
      (FSEntry.dir "M016_2023_08_15_16_00_g0_imec0"
        [.file "M016_2023_08_15_16_00_g0_t0.imec0.lf.meta",
         .file "M016_2023_08_15_16_00_g0_t0.imec0.lf.bin",
         .file "M016_2023_08_15_16_00_g0_t0.imec0.ap.meta",
         .file "M016_2023_08_15_16_00_g0_t0.imec0.ap.bin"]) (by simp),
   probe_file_set_exactness.2 "M016_2023_08_15_16_00"
      (.dir "M016_2023_08_15_16_00_g0"
        [.dir "M016_2023_08_15_16_00_g0_imec0"
          [.file "M016_2023_08_15_16_00_g0_t0.imec0.lf.meta",
           .file "M016_2023_08_15_16_00_g0_t0.imec0.lf.bin",
           .file "M016_2023_08_15_16_00_g0_t0.imec0.ap.meta"]]) []
      [FSEntry.dir "M016_2023_08_15_16_00_g0_imec0"
        [.file "M016_2023_08_15_16_00_g0_t0.imec0.lf.meta",
         .file "M016_2023_08_15_16_00_g0_t0.imec0.lf.bin",
         .file "M016_2023_08_15_16_00_g0_t0.imec0.ap.meta"]]
      (FSEntry.dir "M016_2023_08_15_16_00_g0_imec0"
        [.file "M016_2023_08_15_16_00_g0_t0.imec0.lf.meta",
         .file "M016_2023_08_15_16_00_g0_t0.imec0.lf.bin",
         .file "M016_2023_08_15_16_00_g0_t0.imec0.ap.meta"])
      rfl (by simp) (by decide)⟩

theorem ephys_cross_check_ok {recNames : List String} {session : FSEntry}
    (h : ephys_cross_check recNames session = .ok ()) :
    ∀ d ∈ FSEntry.descendants session, ∀ ending ∈ spikeglx_endings,
      endsWithStr d.name ending = true →
      recNames.any (fun r => d.path.head? == some r) = true := by
  intro d hd ending hending hends
  have h1 := forEachE_ok_iff.mp h ending hending
  have h2 := forEachE_ok_iff.mp h1 d (List.mem_filter.mpr ⟨hd, hends⟩)
  split at h2
  · assumption
  · exact absurd h2 (by simp)

theorem validate_raw_ephys_ok_cross {session : FSEntry} {pathExists : Bool}
    {subject : String} {allowed : List String} {v : List (List String)}
    (h : validate_raw_ephys_data_of_session session pathExists subject allowed =
      .ok v) :
    ephys_cross_check
      ((find_spikeglx_recording_folders_in_session session).map FSEntry.name)
      session = .ok () := by
  simp only [validate_raw_ephys_data_of_session] at h
  split at h
  · exact absurd h (by simp)
  · split at h
    · exact absurd h (by simp)
    · split at h
      · exact absurd h (by simp)
      · rename_i u heq
        cases u
        exact heq

/-- Claim C6: whenever an entry of the session tree whose name ends in
one of the four SpikeGLX suffixes lies outside every discovered `*_g?`
recording folder, `validate_raw_ephys_data_of_session` raises an error;
in particular with zero discovered recording folders, any such file
anywhere in the tree is an error. -/
theorem ephys_stray_file_forces_error :
    ∀ (session : FSEntry) (pathExists : Bool) (subject : String)
      (allowed : List String),
      (∃ d ∈ FSEntry.descendants session,
        (spikeglx_endings.any fun ending => endsWithStr d.name ending) = true ∧
        ∀ r ∈ find_spikeglx_recording_folders_in_session session,
          d.path.head? ≠ some r.name) →
      ∃ e, validate_raw_ephys_data_of_session session pathExists subject allowed =
        .error e := by
  intro session pathExists subject allowed hstray
  obtain ⟨d, hd, hend, hout⟩ := hstray
  cases hres : validate_raw_ephys_data_of_session session pathExists subject allowed with
  | error e => exact ⟨e, rfl⟩
  | ok v =>
    exfalso
    have hcc := validate_raw_ephys_ok_cross hres
    obtain ⟨ending, hmem, hends⟩ := List.any_eq_true.mp hend
    have hany := ephys_cross_check_ok hcc d hd ending hmem hends
    obtain ⟨r, hr, hbeq⟩ := List.any_eq_true.mp hany
    obtain ⟨rf, hrf, rfl⟩ := List.mem_map.mp hr
    exact hout rf hrf (beq_iff_eq.mp hbeq)

/-- Witness for `ephys_stray_file_forces_error`: a session with no
recording folder at all but a stray `.ap.bin` file in its root fails. -/
theorem ephys_stray_file_forces_error_witness :
    ∃ e, validate_raw_ephys_data_of_session
      (.dir "M016_2023_08_15_16_00" [.file "stray.ap.bin"]) true "M016" [] =
        .error e :=
  ephys_stray_file_forces_error
    (.dir "M016_2023_08_15_16_00" [.file "stray.ap.bin"]) true "M016" []
    ⟨⟨["stray.ap.bin"], "stray.ap.bin", true⟩, by decide⟩

theorem videos_cross_check_ok {session : FSEntry} {folderName : String}
    (h : videos_cross_check session folderName = .ok ()) :
    ∀ d ∈ FSEntry.descendants session,
      (endsWithStr d.name ".avi" = true ∨ d.name = "metadata.csv") →
      d.path.head? = some folderName := by
  unfold videos_cross_check at h
  split at h
  · exact absurd h (by simp)
  · rename_i havi
    split at h
    · exact absurd h (by simp)
    · rename_i hmeta
      intro d hd hcase
      unfold firstOutside at havi hmeta
      cases hcase with
      | inl hends =>
        have := List.find?_eq_none.mp havi d.path
          (List.mem_map.mpr ⟨d, List.mem_filter.mpr ⟨hd, hends⟩, rfl⟩)
        simpa using this
      | inr hname =>
        have := List.find?_eq_none.mp hmeta d.path
          (List.mem_map.mpr ⟨d, List.mem_filter.mpr
            ⟨hd, beq_iff_eq.mpr hname⟩, rfl⟩)
        simpa using this

theorem validate_raw_videos_ok_cross {session : FSEntry} {pathExists : Bool}
    {subject : String} {warnFlag : Bool}
    {v : List (List String) × List String}
    (h : validate_raw_videos_of_session session pathExists subject warnFlag =
      .ok v) :
    videos_cross_check session (session.name ++ "_cameras") = .ok () := by
  simp only [validate_raw_videos_of_session] at h
  split at h
  · exact absurd h (by simp)
  · split at h
    · exact absurd h (by simp)
    · split at h
      · exact absurd h (by simp)
      · rename_i u heq
        cases u
        exact heq

/-- Claim C4: any `.avi` entry or `metadata.csv` entry anywhere in the
session tree outside the expected `{session_name}_cameras` folder path
makes `validate_raw_videos_of_session` raise an error, whether or not
that folder exists; and when the folder does not exist and no such
misplaced entry exists, the validator returns the empty file list after
the non-fatal warning. -/
theorem video_misplaced_artifacts :
    (∀ (session : FSEntry) (pathExists : Bool) (subject : String)
        (warnFlag : Bool),
      (∃ d ∈ FSEntry.descendants session,
        (endsWithStr d.name ".avi" = true ∨ d.name = "metadata.csv") ∧
        d.path.head? ≠ some (session.name ++ "_cameras")) →
      ∃ e, validate_raw_videos_of_session session pathExists subject warnFlag =
        .error e) ∧
    (∀ (session : FSEntry) (subject : String),
      validate_session_path true session.name subject = .ok true →
      session.children.find? (fun c => c.name == session.name ++ "_cameras") =
        none →
      (∀ d ∈ FSEntry.descendants session,
        endsWithStr d.name ".avi" = false ∧ d.name ≠ "metadata.csv") →
      validate_raw_videos_of_session session true subject true =
        .ok ([], ["No correctly named video folder found"])) := by
  constructor
  · intro session pathExists subject warnFlag hstray
    obtain ⟨d, hd, hkind, hout⟩ := hstray
    cases hres : validate_raw_videos_of_session session pathExists subject warnFlag with
    | error e => exact ⟨e, rfl⟩
    | ok v =>
      exact absurd (videos_cross_check_ok (validate_raw_videos_ok_cross hres)
        d hd hkind) hout
  · intro session subject hsess hfind hall
    have hcv : check_video_folder session.name session.children true =
        .ok (false, ["No correctly named video folder found"]) := by
      unfold check_video_folder
      rw [hfind]
      rfl
    have havi : ((FSEntry.descendants session).filter fun d =>
        endsWithStr d.name ".avi") = [] :=
      List.filter_eq_nil.mpr fun d hd => by simp [(hall d hd).1]
    have hmeta : ((FSEntry.descendants session).filter fun d =>
        (d.name == "metadata.csv")) = [] :=
      List.filter_eq_nil.mpr fun d hd => by
        simp [beq_eq_false_iff_ne.mpr (hall d hd).2]
    have hcc : videos_cross_check session (session.name ++ "_cameras") =
        .ok () := by
      unfold videos_cross_check firstOutside
      rw [havi, hmeta]
      rfl
    simp only [validate_raw_videos_of_session]
    rw [hsess, hcv, hcc]
    rfl

/-- Witness for `video_misplaced_artifacts`: a misplaced root-level
`.avi` file fails even with no `_cameras` folder present, and a clean
session without the folder passes with only the warning. -/
theorem video_misplaced_artifacts_witness :
    (∃ e, validate_raw_videos_of_session
      (.dir "M016_2023_08_15_16_00" [.file "oops.avi"]) true "M016" true =
        .error e) ∧
      validate_raw_videos_of_session (.dir "M016_2023_08_15_16_00" [])
          true "M016" true =
        .ok ([], ["No correctly named video folder found"]) :=
  ⟨video_misplaced_artifacts.1 (.dir "M016_2023_08_15_16_00" [.file "oops.avi"])
      true "M016" true ⟨⟨["oops.avi"], "oops.avi", true⟩, by decide⟩,
   video_misplaced_artifacts.2 (.dir "M016_2023_08_15_16_00" []) "M016"
      rfl rfl (by decide)⟩

/-- Witness for `session_path_index_out_of_bounds`: the folder name equal
to the subject name hits the IndexError; a strictly longer one cannot. -/
theorem session_path_index_out_of_bounds_witness :
    validate_session_path true "M016" "M016" = .error .indexError ∧
      validate_session_path true "M016_2023" "M016" ≠ .error .indexError :=
  ⟨session_path_index_out_of_bounds.1 "M016",
   session_path_index_out_of_bounds.2 "M016_2023" "M016" (by decide) (by decide)⟩
